import Mathlib

/-!
Verification development for the Dungeon GPT Lite session core
(`streamlit_app.py`): conversation log, session settings, prompt
construction, generation gateway, Firestore persistence, and the
portable transcript export/import path.

The Python source is shallowly embedded: session state is an explicit
record, the Streamlit display calls (`st.info`, `st.error`, ...) are
modelled as an explicit display value in the result, the JSON boundary
is modelled by an inductive `JValue` type (with `none : Option JValue`
standing for text that `json.loads` rejects), and the external Gemini
call is modelled by an oracle `ProviderOutcome` describing what the
provider call would return.
-/

namespace DungeonGPT

/-- One conversation turn, as the dicts `{"sender": ..., "text": ...}`
appended to `st.session_state.story_history` in the source. -/
structure Turn where
  sender : String
  text : String
deriving DecidableEq

/-- The session state managed by `st.session_state` in the source:
`story_history`, `current_mode`, `temperature`, `tone`, `user_id`.
Temperature is modelled as a rational. -/
structure SessionState where
  story_history : List Turn
  current_mode : String
  temperature : ℚ
  tone : String
  user_id : String
deriving DecidableEq

/-- JSON-like values for the export/import and Firestore boundaries.
`serverTimestamp` is not JSON: it models the `firestore.SERVER_TIMESTAMP`
sentinel that the caller places in a write request and the server
replaces with its own time; no JSON producer in this file emits it. -/
inductive JValue where
  | null
  | bool (b : Bool)
  | num (q : ℚ)
  | str (s : String)
  | arr (elems : List JValue)
  | obj (fields : List (String × JValue))
  | serverTimestamp

/-- Key lookup in a JSON object's field list (Python `d[k]` / `d.get(k)`
on a parsed dict; first match, mirroring the unique keys of a parsed
JSON object). -/
def getField : List (String × JValue) → String → Option JValue
  | [], _ => none
  | (k, v) :: rest, key => if k = key then some v else getField rest key

/-- Encoding of one history turn as the JSON object the source's
`json.dumps` produces for the dict `{"sender": s, "text": t}`. -/
def turnToJValue (t : Turn) : JValue :=
  .obj [("sender", .str t.sender), ("text", .str t.text)]

/-- Decoding of one JSON value back into a typed turn: an object whose
`sender` and `text` fields are strings. -/
def jvalueToTurn (v : JValue) : Option Turn :=
  match v with
  | .obj fields =>
    match getField fields "sender", getField fields "text" with
    | some (.str s), some (.str t) => some ⟨s, t⟩
    | _, _ => none
  | _ => none

/-- Decoding of a list of JSON values into turns; fails if any element
is not turn-shaped. -/
def decodeTurnList : List JValue → Option (List Turn)
  | [] => some []
  | v :: rest =>
    match jvalueToTurn v, decodeTurnList rest with
    | some t, some ts => some (t :: ts)
    | _, _ => none

/-- Decoding of a JSON value into a conversation history: a JSON array
of turn objects. The source assigns the raw parsed value to
`st.session_state.story_history`; in this typed embedding the
assignment is the decoding of that value into `List Turn`. -/
def jsonToTurns (v : JValue) : Option (List Turn) :=
  match v with
  | .arr elems => decodeTurnList elems
  | _ => none

/-- The system preamble of the prompt (`full_context` lines 434-438 of
the source): the narrator role ("AI Dungeon Master") and the configured
tone. -/
def promptPreamble (tone : String) : String :=
  "You are an AI Dungeon Master. The story\x27s tone is: " ++ tone ++
    ". Generate the next part of the fantasy story based on the following conversation:\n\n"

/-- One history line of the prompt: uppercased sender, colon and space,
turn text, newline (the f-string of source line 444). -/
def renderTurn (t : Turn) : String :=
  t.sender.toUpper ++ ": " ++ t.text ++ "\n"

/-- The prompt built for generation (source lines 434-445): preamble,
then a fold over `story_history[-10:]` appending one rendered line per
turn, then the trailing "AI:" cue. Python `l[-10:]` is
`l.drop (l.length - 10)` under truncated subtraction. -/
def full_context (story_history : List Turn) (tone : String) : String :=
  let ctx := (story_history.drop (story_history.length - 10)).foldl
    (fun acc msg => acc ++ renderTurn msg) (promptPreamble tone)
  ctx ++ "AI:"

/-- Modelled from the spec: "the last 10 turns of history" taken from
the end, written independently of the source's negative-slice idiom. -/
def lastTenSpec (l : List Turn) : List Turn :=
  (l.reverse.take 10).reverse

theorem foldl_append_shift (l : List Turn) (acc : String) :
    l.foldl (fun a msg => a ++ renderTurn msg) acc
      = acc ++ l.foldl (fun a msg => a ++ renderTurn msg) "" := by
  induction l generalizing acc with
  | nil => simp
  | cons t rest ih =>
    simp only [List.foldl_cons]
    rw [ih (acc ++ renderTurn t), ih ("" ++ renderTurn t)]
    simp [String.append_assoc]

theorem foldl_append_eq_join (l : List Turn) (acc : String) :
    l.foldl (fun a msg => a ++ renderTurn msg) acc
      = acc ++ String.join (l.map renderTurn) := by
  have h := foldl_append_shift l acc
  simp only [String.join, List.foldl_map]
  exact h

theorem reverse_take_reverse_eq_drop (l : List Turn) (n : ℕ) :
    (l.reverse.take n).reverse = l.drop (l.length - n) :=
  (List.rtake_eq_reverse_take_reverse (l := l) (n := n)).symm

/-- C1: for every conversation log and settings, the prompt built for
generation is exactly the system preamble (narrator role, configured
tone), followed by the last 10 turns of the log (all turns when fewer
than 10 exist), each rendered as uppercased sender, colon-space, text,
one per line, in log order, followed by the trailing "AI:" cue; for a
12-turn log the windowed part is exactly the last 10 turns. -/
theorem prompt_construction_spec (story_history : List Turn) (tone : String) :
    full_context story_history tone
      = promptPreamble tone ++ String.join ((lastTenSpec story_history).map renderTurn) ++ "AI:"
    ∧ (story_history.length ≤ 10 → lastTenSpec story_history = story_history)
    ∧ (story_history.length = 12 →
        lastTenSpec story_history = story_history.drop 2
        ∧ (lastTenSpec story_history).length = 10) := by
  refine ⟨?_, ?_, ?_⟩
  · show (story_history.drop (story_history.length - 10)).foldl
        (fun acc msg => acc ++ renderTurn msg) (promptPreamble tone) ++ "AI:" = _
    rw [lastTenSpec, reverse_take_reverse_eq_drop, foldl_append_eq_join]
  · intro h
    rw [lastTenSpec, List.take_of_length_le (by simpa using h), List.reverse_reverse]
  · intro h
    refine ⟨?_, ?_⟩
    · rw [lastTenSpec, reverse_take_reverse_eq_drop, h]
    · rw [lastTenSpec, reverse_take_reverse_eq_drop, List.length_drop, h]

/-- A concrete 12-turn log used to witness the prompt-construction
claim. -/
def log12 : List Turn :=
  (List.range 12).map (fun i => ⟨if i % 2 = 0 then "user" else "ai", "turn " ++ toString i⟩)

theorem prompt_construction_spec_witness :
    full_context log12 "Fantasy"
      = promptPreamble "Fantasy" ++ String.join ((lastTenSpec log12).map renderTurn) ++ "AI:"
    ∧ lastTenSpec log12 = log12.drop 2
    ∧ (lastTenSpec log12).length = 10 := by
  refine ⟨(prompt_construction_spec log12 "Fantasy").1, ?_, ?_⟩
  · exact ((prompt_construction_spec log12 "Fantasy").2.2 (by rfl)).1
  · exact ((prompt_construction_spec log12 "Fantasy").2.2 (by rfl)).2

/-- Whether the two Gemini model instances were constructed at startup:
`gemini_model_censored` / `gemini_model_uncensored` are `None` exactly
when configuration failed (missing key or configure error). -/
structure GeminiModels where
  censoredConfigured : Bool
  uncensoredConfigured : Bool
deriving DecidableEq

/-- What the external `generate_content` call would produce, as seen by
the source: a response object with optional usable `text` and optional
`prompt_feedback` block reason, or a raised exception with a message
string. -/
inductive ProviderOutcome where
  | ok (text : Option String) (blockReason : Option String)
  | raises (msg : String)
deriving DecidableEq

/-- Whether `needle` matches the leading characters of `hay`. -/
def leadMatch : List Char → List Char → Bool
  | [], _ => true
  | _ :: _, [] => false
  | a :: as, b :: bs => a == b && leadMatch as bs

/-- Whether `needle` occurs contiguously anywhere in `hay`. -/
def hasSubList : List Char → List Char → Bool
  | needle, [] => needle.isEmpty
  | needle, b :: bs => leadMatch needle (b :: bs) || hasSubList needle bs

/-- Substring test, modelling Python's `needle in haystack` on
strings. -/
def containsSub (needle hay : String) : Bool :=
  hasSubList needle.toList hay.toList

/-- The model-selection prelude of `generate_gemini_response` (source
lines 145-149): `selected_model` is non-None exactly when the mode
names a configured instance. -/
def selectModel (cfg : GeminiModels) (mode : String) : Bool :=
  if mode = "censored" then cfg.censoredConfigured
  else if mode = "uncensored" then cfg.uncensoredConfigured
  else false

/-- Source line 153. -/
def notConfiguredMsg (mode : String) : String :=
  "Error: Gemini API for \x27" ++ mode ++ "\x27 mode is not configured. Check your GOOGLE_API_KEY."

/-- Source line 168. -/
def blockedMsg (reason : String) : String :=
  "AI response was blocked by safety settings. Reason: " ++ reason

/-- Source line 171. -/
def emptyMsg : String :=
  "AI returned an empty or unreadable response."

/-- Source lines 178-180. -/
def modelNotFoundMsg (mode : String) : String :=
  "AI (Gemini " ++ mode ++ ") API Error: Model \x27gemini-pro\x27 not found or accessible. " ++
    "Ensure Generative Language API is enabled in your Google Cloud Project " ++
    "and your GOOGLE_API_KEY is correct and has the necessary permissions."

/-- Source line 182. -/
def permissionDeniedMsg (mode : String) : String :=
  "AI (Gemini " ++ mode ++ ") API Error: Permission denied. Check your GOOGLE_API_KEY and its permissions."

/-- Source line 184. -/
def serverErrorMsg (mode : String) : String :=
  "AI (Gemini " ++ mode ++ ") API Error: Internal server error. Please try again later."

/-- Source line 187. -/
def genericErrorMsg (mode : String) (e : String) : String :=
  "AI (Gemini " ++ mode ++ ") encountered an error: " ++ e

/-- The blocked/empty classification of a successful call with no
usable text (source lines 165-171): a truthy `prompt_feedback` yields
the blocked message, otherwise the empty-response message. -/
def blockedOrEmpty (blockReason : Option String) : String :=
  match blockReason with
  | some reason => blockedMsg reason
  | none => emptyMsg

/-- `generate_gemini_response` (source lines 132-187): select the model
for the mode, fail fast when it is not configured, otherwise classify
the provider outcome — usable text is returned as-is, blocked/empty
responses and raised exceptions are each mapped to their informative
message string. The `prompt` and `temperature` arguments are forwarded
to the provider call, whose result the `call` oracle already
describes. -/
def generate_gemini_response (cfg : GeminiModels) (prompt : String) (temperature : ℚ)
    (mode : String) (call : ProviderOutcome) : String :=
  if selectModel cfg mode = false then notConfiguredMsg mode
  else
    match call with
    | .ok text blockReason =>
      match text with
      | some t => if t = "" then blockedOrEmpty blockReason else t
      | none => blockedOrEmpty blockReason
    | .raises e =>
      if containsSub "404" e && containsSub "models/gemini-pro" e then modelNotFoundMsg mode
      else if containsSub "403" e then permissionDeniedMsg mode
      else if containsSub "500" e then serverErrorMsg mode
      else genericErrorMsg mode e

/-- The spec's gateway view `generate(history, settings)` of the source
function: the call reads the session state (to build the prompt and
pick mode/temperature) and returns a display string; it performs no
state mutation, which the pairing makes explicit. -/
def generateStep (cfg : GeminiModels) (s : SessionState) (call : ProviderOutcome) :
    SessionState × String :=
  (s, generate_gemini_response cfg (full_context s.story_history s.tone)
        s.temperature s.current_mode call)

/-- C3: when the provider call raises a 403 (permission-denied) failure
(and not the more specific gemini-pro-404 message), the gateway returns
the permission-denied outcome — the code's rendering of
ProviderError(Forbidden) — no exception escapes (the result is this
string), and the conversation log is unchanged by the failed
generation. -/
theorem generate_on_403 (cfg : GeminiModels) (s : SessionState) (e : String)
    (hconf : selectModel cfg s.current_mode = true)
    (h403 : containsSub "403" e = true)
    (h404 : (containsSub "404" e && containsSub "models/gemini-pro" e) = false) :
    generateStep cfg s (.raises e) = (s, permissionDeniedMsg s.current_mode) := by
  simp [generateStep, generate_gemini_response, hconf, h403, h404]

/-- Configuration with both model instances constructed. -/
def cfgBoth : GeminiModels := ⟨true, true⟩

/-- Configuration with no model instance constructed (missing
GOOGLE_API_KEY). -/
def cfgNone : GeminiModels := ⟨false, false⟩

/-- A concrete session state used in the gateway witnesses. -/
def s403 : SessionState :=
  ⟨[⟨"user", "hello"⟩], "censored", 7/10, "Fantasy", "uid-1"⟩

theorem generate_on_403_witness :
    generateStep cfgBoth s403 (.raises "403 PERMISSION_DENIED: key lacks access")
      = (s403, permissionDeniedMsg "censored") :=
  generate_on_403 cfgBoth s403 "403 PERMISSION_DENIED: key lacks access"
    (by decide) (by decide) (by decide)

/-- C7: when no provider configuration exists for the selected mode,
generation fails immediately with the not-configured message — the
code's rendering of ProviderError(Unauthorized, "not configured") —
and no provider call is attempted: the result does not depend on what
the call would have returned. -/
theorem generate_not_configured (cfg : GeminiModels) (prompt : String) (temperature : ℚ)
    (mode : String) (call call2 : ProviderOutcome)
    (h : selectModel cfg mode = false) :
    generate_gemini_response cfg prompt temperature mode call = notConfiguredMsg mode
    ∧ generate_gemini_response cfg prompt temperature mode call
        = generate_gemini_response cfg prompt temperature mode call2 := by
  constructor <;> simp [generate_gemini_response, h]

theorem generate_not_configured_witness :
    generate_gemini_response cfgNone "prompt" (7/10) "censored" (.ok (some "story") none)
        = notConfiguredMsg "censored"
    ∧ generate_gemini_response cfgNone "prompt" (7/10) "censored" (.ok (some "story") none)
        = generate_gemini_response cfgNone "prompt" (7/10) "censored" (.raises "500 down") :=
  generate_not_configured cfgNone "prompt" (7/10) "censored"
    (.ok (some "story") none) (.raises "500 down") (by decide)

/-- Failure classification of the import path (source lines 343-371):
`decodeFailure` is the `json.JSONDecodeError` handler (line 365),
`malformedDocument` the missing-top-level-key branch (line 358),
`unexpected` the generic `except Exception` handler (line 368, e.g.
when `settings` is not a dict so `.get` raises `AttributeError`).
`valueNotRepresentable` is an artifact of this typed embedding: the
source assigns raw JSON values into the session state, and a history or
settings field whose value is not of the state's type cannot be
represented here; no claim exercises that case. -/
inductive ImportErr where
  | decodeFailure
  | malformedDocument
  | unexpected
  | valueNotRepresentable
deriving DecidableEq

/-- A settings field read with `.get(key, current)`: absent falls back
to the caller's current value; present must be a string to be
representable in the typed state. -/
def strOrCur (v : Option JValue) (cur : String) : Option String :=
  match v with
  | none => some cur
  | some (.str s) => some s
  | some _ => none

/-- As `strOrCur`, for the numeric temperature field. -/
def numOrCur (v : Option JValue) (cur : ℚ) : Option ℚ :=
  match v with
  | none => some cur
  | some (.num q) => some q
  | some _ => none

/-- The export document (source lines 308-316): history, settings
(current_mode, temperature, tone), and the informational
`exported_from_user_id`. -/
def export_data (s : SessionState) : JValue :=
  .obj [("history", .arr (s.story_history.map turnToJValue)),
        ("settings", .obj [("current_mode", .str s.current_mode),
                           ("temperature", .num s.temperature),
                           ("tone", .str s.tone)]),
        ("exported_from_user_id", .str s.user_id)]

/-- The import handler (source lines 343-371) as a state transformer.
The argument is the result of `json.loads`: `none` models text that is
not well-formed JSON (the `JSONDecodeError` handler fires before any
assignment). On an object with both `history` and `settings` keys the
handler assigns history and each settings field (with `.get` fallback
to the current value); missing either key is the malformed-document
branch; a non-object top level mirrors Python's `in` on lists/strings
(membership/substring) followed by a `TypeError` from indexing, and a
non-object `settings` raises `AttributeError` on `.get` — both land in
the generic exception handler. In every failure branch the returned
state is the input state, except the non-dict-settings branch where
history has already been assigned (source assigns history on line 351
before reading settings). -/
def importOutcome (parsed : Option JValue) (s : SessionState) :
    SessionState × Option ImportErr :=
  match parsed with
  | none => (s, some .decodeFailure)
  | some (.obj fields) =>
    match getField fields "history", getField fields "settings" with
    | some hv, some sv =>
      match jsonToTurns hv with
      | none => (s, some .valueNotRepresentable)
      | some hist =>
        match sv with
        | .obj sf =>
          match strOrCur (getField sf "current_mode") s.current_mode,
                numOrCur (getField sf "temperature") s.temperature,
                strOrCur (getField sf "tone") s.tone with
          | some m, some q, some tn =>
            ({ s with story_history := hist, current_mode := m,
                      temperature := q, tone := tn }, none)
          | _, _, _ => ({ s with story_history := hist }, some .valueNotRepresentable)
        | _ => ({ s with story_history := hist }, some .unexpected)
    | _, _ => (s, some .malformedDocument)
  | some (.arr elems) =>
    if (elems.any fun v => match v with | .str x => x == "history" | _ => false)
        && (elems.any fun v => match v with | .str x => x == "settings" | _ => false)
    then (s, some .unexpected)
    else (s, some .malformedDocument)
  | some (.str t) =>
    if containsSub "history" t && containsSub "settings" t then (s, some .unexpected)
    else (s, some .malformedDocument)
  | some _ => (s, some .unexpected)

theorem decodeTurnList_map (l : List Turn) :
    decodeTurnList (l.map turnToJValue) = some l := by
  induction l with
  | nil => rfl
  | cons t rest ih =>
    simp [decodeTurnList, turnToJValue, jvalueToTurn, getField, ih]

theorem jsonToTurns_roundtrip (l : List Turn) :
    jsonToTurns (.arr (l.map turnToJValue)) = some l := by
  simp [jsonToTurns, decodeTurnList_map]

/-- C2: importing the document produced by export of a session yields
back exactly that session's history and settings, whatever the current
state of the importing session; the identifier field is ignored on
the way back in (the importing session keeps its own `user_id`). -/
theorem export_import_roundtrip (s scur : SessionState) :
    importOutcome (some (export_data s)) scur
      = ({ scur with story_history := s.story_history,
                     current_mode := s.current_mode,
                     temperature := s.temperature,
                     tone := s.tone }, none) := by
  simp [importOutcome, export_data, getField, jsonToTurns_roundtrip, strOrCur, numOrCur]

/-- The seed state of a fresh session: welcome turn, censored mode,
temperature 0.7, Fantasy tone. -/
def s0 : SessionState :=
  ⟨[⟨"ai", "Welcome, adventurer! What quest shall we embark on today?"⟩],
   "censored", 7/10, "Fantasy", "uid-0"⟩

/-- A transcript whose settings carry an out-of-set mode and an
out-of-range temperature. -/
def badSettingsDoc : JValue :=
  .obj [("history", .arr []),
        ("settings", .obj [("current_mode", .str "foo"), ("temperature", .num (3/2))])]

/-- C4 counterexample: importing settings with mode "foo" and
temperature 1.5 succeeds (no InvalidSettingValue failure exists in the
code) and the invalid values replace the prior valid ones. -/
theorem settings_no_validation_cex :
    (importOutcome (some badSettingsDoc) s0).2 = none
    ∧ (importOutcome (some badSettingsDoc) s0).1.current_mode = "foo"
    ∧ (importOutcome (some badSettingsDoc) s0).1.temperature = 3/2 :=
  ⟨rfl, rfl, rfl⟩

/-- C4 amended: the code performs no validation on settings values:
any mode, temperature or tone present in an imported document is
assigned verbatim, replacing the prior value; only the UI widgets
constrain interactive selection to the enumerated options. -/
theorem settings_assigned_verbatim (s : SessionState) (m tn : String) (q : ℚ) :
    importOutcome (some (.obj [("history", .arr []),
        ("settings", .obj [("current_mode", .str m), ("temperature", .num q),
                           ("tone", .str tn)])])) s
      = ({ s with story_history := [], current_mode := m,
                  temperature := q, tone := tn }, none) := by
  simp [importOutcome, getField, jsonToTurns, decodeTurnList, strOrCur, numOrCur]

/-- C5: for every transcript document with both top-level keys whose
settings object omits any subset of the three fields (each field
either absent or present with a settings-typed value), import
succeeds, every absent settings field falls back to the importing
caller's current value (not a hardcoded default), and every present
field is taken from the document. -/
theorem settings_fallback (s : SessionState) (hv : JValue) (hist : List Turn)
    (sf : List (String × JValue))
    (hh : jsonToTurns hv = some hist)
    (hm : getField sf "current_mode" = none
          ∨ ∃ x, getField sf "current_mode" = some (.str x))
    (hq : getField sf "temperature" = none
          ∨ ∃ x, getField sf "temperature" = some (.num x))
    (htn : getField sf "tone" = none
          ∨ ∃ x, getField sf "tone" = some (.str x)) :
    (importOutcome (some (.obj [("history", hv), ("settings", .obj sf)])) s).2 = none
    ∧ (getField sf "current_mode" = none →
        (importOutcome (some (.obj [("history", hv), ("settings", .obj sf)])) s).1.current_mode
          = s.current_mode)
    ∧ (∀ x, getField sf "current_mode" = some (.str x) →
        (importOutcome (some (.obj [("history", hv), ("settings", .obj sf)])) s).1.current_mode
          = x)
    ∧ (getField sf "temperature" = none →
        (importOutcome (some (.obj [("history", hv), ("settings", .obj sf)])) s).1.temperature
          = s.temperature)
    ∧ (∀ x, getField sf "temperature" = some (.num x) →
        (importOutcome (some (.obj [("history", hv), ("settings", .obj sf)])) s).1.temperature
          = x)
    ∧ (getField sf "tone" = none →
        (importOutcome (some (.obj [("history", hv), ("settings", .obj sf)])) s).1.tone
          = s.tone)
    ∧ (∀ x, getField sf "tone" = some (.str x) →
        (importOutcome (some (.obj [("history", hv), ("settings", .obj sf)])) s).1.tone
          = x)
    ∧ (importOutcome (some (.obj [("history", hv), ("settings", .obj sf)])) s).1.story_history
        = hist := by
  rcases hm with hm | ⟨mv, hm⟩ <;>
    rcases hq with hq | ⟨qv, hq⟩ <;>
      rcases htn with htn | ⟨tv, htn⟩ <;>
        refine ⟨?_, ?_, ?_, ?_, ?_, ?_, ?_, ?_⟩ <;>
          simp [importOutcome, getField, hh, hm, hq, htn, strOrCur, numOrCur]

/-- The spec's partial-settings example: only temperature 0.9. -/
def temperatureOnlyDoc : JValue :=
  .obj [("history", .arr [turnToJValue ⟨"user", "hi"⟩]),
        ("settings", .obj [("temperature", .num (9/10))])]

/-- An importing session currently in uncensored mode with Horror
tone. -/
def sHorror : SessionState := ⟨[], "uncensored", 7/10, "Horror", "uid-5"⟩

theorem settings_fallback_witness :
    (importOutcome (some temperatureOnlyDoc) sHorror).2 = none
    ∧ (importOutcome (some temperatureOnlyDoc) sHorror).1.current_mode
        = sHorror.current_mode
    ∧ (importOutcome (some temperatureOnlyDoc) sHorror).1.temperature = 9/10
    ∧ (importOutcome (some temperatureOnlyDoc) sHorror).1.tone = sHorror.tone := by
  have h := settings_fallback sHorror (.arr [turnToJValue ⟨"user", "hi"⟩])
    [⟨"user", "hi"⟩] [("temperature", .num (9/10))] (by rfl)
    (Or.inl (by rfl)) (Or.inr ⟨9/10, by rfl⟩) (Or.inl (by rfl))
  exact ⟨h.1, h.2.1 (by rfl), h.2.2.2.2.1 (9/10) (by rfl), h.2.2.2.2.2.1 (by rfl)⟩

/-- C6: import fails with the malformed-document outcome exactly when
the top-level `history` or `settings` key is missing from the document
object, and with the distinct decode-failure outcome when the input
text is not well-formed JSON; in both failure cases the session state
is returned unchanged. -/
theorem import_malformed_classification (s : SessionState)
    (fields : List (String × JValue)) :
    importOutcome none s = (s, some .decodeFailure)
    ∧ ((importOutcome (some (.obj fields)) s).2 = some .malformedDocument
        ↔ (getField fields "history" = none ∨ getField fields "settings" = none))
    ∧ ((getField fields "history" = none ∨ getField fields "settings" = none) →
        importOutcome (some (.obj fields)) s = (s, some .malformedDocument))
    ∧ ImportErr.malformedDocument ≠ ImportErr.decodeFailure := by
  refine ⟨rfl, ?_, ?_, by decide⟩
  · rcases hh : getField fields "history" with _ | hv
    · simp [importOutcome, hh]
    · rcases hs : getField fields "settings" with _ | sv
      · simp [importOutcome, hh, hs]
      · rcases hj : jsonToTurns hv with _ | hist
        · simp [importOutcome, hh, hs, hj]
        · cases sv with
          | obj sf =>
            rcases hm : strOrCur (getField sf "current_mode") s.current_mode with _ | m <;>
              rcases hq : numOrCur (getField sf "temperature") s.temperature with _ | q <;>
                rcases htn : strOrCur (getField sf "tone") s.tone with _ | tn <;>
                  simp [importOutcome, hh, hs, hj, hm, hq, htn]
          | null => simp [importOutcome, hh, hs, hj]
          | bool b => simp [importOutcome, hh, hs, hj]
          | num q => simp [importOutcome, hh, hs, hj]
          | str t => simp [importOutcome, hh, hs, hj]
          | arr elems => simp [importOutcome, hh, hs, hj]
          | serverTimestamp => simp [importOutcome, hh, hs, hj]
  · intro h
    rcases hh : getField fields "history" with _ | hv
    · simp [importOutcome, hh]
    · rcases hs : getField fields "settings" with _ | sv
      · simp [importOutcome, hh, hs]
      · rcases h with h | h
        · rw [hh] at h; exact absurd h (by simp)
        · rw [hs] at h; exact absurd h (by simp)

theorem import_malformed_witness :
    importOutcome (some (.obj [("foo", .num 1)])) s0 = (s0, some .malformedDocument)
    ∧ importOutcome none s0 = (s0, some .decodeFailure) :=
  ⟨(import_malformed_classification s0 [("foo", .num 1)]).2.2.1 (Or.inl (by rfl)),
   (import_malformed_classification s0 [("foo", .num 1)]).1⟩

/-- The `session_data` dict built by `save_story_to_firestore` (source
lines 207-213): history, current_mode, temperature, tone, and the
`firestore.SERVER_TIMESTAMP` sentinel. -/
def sessionDataFields (s : SessionState) : List (String × JValue) :=
  [("history", .arr (s.story_history.map turnToJValue)),
   ("current_mode", .str s.current_mode),
   ("temperature", .num s.temperature),
   ("tone", .str s.tone),
   ("timestamp", .serverTimestamp)]

/-- A Firestore write request: the fields sent and the merge flag of
`doc_ref.set(session_data, merge=True)`. -/
structure WriteRequest where
  fields : List (String × JValue)
  merge : Bool

/-- `save_story_to_firestore` (source lines 202-216): builds the write
request from the session state alone — it performs no read of the
stored document — and sends it with `merge=True`. -/
def save_story_to_firestore (s : SessionState) : WriteRequest :=
  ⟨sessionDataFields s, true⟩

/-- Server-side resolution of the timestamp sentinel: the store, not
the caller, supplies the actual time value. -/
def resolveSentinel (serverTime : JValue) (v : JValue) : JValue :=
  match v with
  | .serverTimestamp => serverTime
  | x => x

/-- The document-store semantics of applying a write request to the
stored document (a partial map from field name to value): with
`merge=True` fields present in the request replace the stored ones and
all other stored fields survive; without merge the document is
replaced wholesale. -/
def applyMergeWrite (doc : String → Option JValue) (req : WriteRequest)
    (serverTime : JValue) : String → Option JValue :=
  fun k =>
    match getField req.fields k with
    | some v => some (resolveSentinel serverTime v)
    | none => if req.merge then doc k else none

/-- C9: save is a merge-write built from the session state alone (no
prior read): any stored field other than the five it writes survives
unchanged, the merge flag is set, and the stored timestamp is the
server-assigned value — the request carries only the sentinel, never a
caller-supplied time. -/
theorem save_merge_write (s : SessionState) (doc : String → Option JValue)
    (serverTime : JValue) (k : String)
    (hk : getField (sessionDataFields s) k = none) :
    applyMergeWrite doc (save_story_to_firestore s) serverTime k = doc k
    ∧ (save_story_to_firestore s).merge = true
    ∧ applyMergeWrite doc (save_story_to_firestore s) serverTime "timestamp"
        = some serverTime
    ∧ getField (save_story_to_firestore s).fields "timestamp"
        = some .serverTimestamp := by
  refine ⟨?_, rfl, rfl, rfl⟩
  simp only [applyMergeWrite, save_story_to_firestore, hk]
  rfl

/-- A stored document carrying a field written out-of-band by a higher
layer. -/
def docOwner : String → Option JValue :=
  fun k => if k = "owner" then some (.str "alice") else none

theorem save_merge_write_witness :
    applyMergeWrite docOwner (save_story_to_firestore s0) (.str "srv-time") "owner"
        = docOwner "owner"
    ∧ (save_story_to_firestore s0).merge = true
    ∧ applyMergeWrite docOwner (save_story_to_firestore s0) (.str "srv-time") "timestamp"
        = some (.str "srv-time")
    ∧ getField (save_story_to_firestore s0).fields "timestamp"
        = some .serverTimestamp :=
  save_merge_write s0 docOwner (.str "srv-time") "owner" (by rfl)

/-- What the Firestore `doc_ref.get()` in the load path would produce:
the stored record's fields (each optional, as `data.get` reads them),
no document, or a raised exception. -/
inductive LoadBackend where
  | found (history : Option (List Turn)) (mode : Option String)
      (temperature : Option ℚ) (tone : Option String)
  | missing
  | raises (msg : String)
deriving DecidableEq

/-- Which Streamlit display call the handler made (`st.info`,
`st.warning`, `st.error`, `st.success`) and with what text. -/
inductive Display where
  | info (msg : String)
  | warning (msg : String)
  | errorMsg (msg : String)
  | success (msg : String)
deriving DecidableEq

/-- `load_story_from_firestore` (source lines 225-255): returns the
updated state, the boolean the function returns to its caller, and the
display call it made. `dbConfigured` models the `not db or not
st.session_state.user_id` guard. On a found document each field is
restored with `data.get` defaults; on no document the function shows
`st.info` and returns False; on an exception it shows `st.error` and
returns False. -/
def load_story_from_firestore (dbConfigured : Bool) (backend : LoadBackend)
    (s : SessionState) : SessionState × Bool × Display :=
  if dbConfigured = false then
    (s, false, .warning "Cannot load: Firebase not initialized or user ID not available.")
  else
    match backend with
    | .found h m t tn =>
      ({ s with story_history := h.getD [], current_mode := m.getD "censored",
                temperature := t.getD (7/10), tone := tn.getD "Fantasy" },
       true, .success "Session loaded successfully from cloud!")
    | .missing => (s, false, .info "No saved session found for this user ID.")
    | .raises e => (s, false, .errorMsg ("Error loading session: " ++ e))

/-- C8 counterexample: with the backend reachable and no stored record,
load returns False — the very same value a transport failure returns —
not a None-like outcome the caller could tell apart. -/
theorem load_missing_not_distinguishable_cex :
    (load_story_from_firestore true .missing s0).2.1 = false
    ∧ (load_story_from_firestore true (.raises "transport failure") s0).2.1 = false
    ∧ (load_story_from_firestore true .missing s0).2.1
        = (load_story_from_firestore true (.raises "transport failure") s0).2.1 :=
  ⟨rfl, rfl, rfl⟩

/-- C8 amended: in the no-record case load returns False with the
session state unchanged and an informational message displayed; a
transport failure also returns False but displays an error message —
the displayed message, not the returned value, is what distinguishes
the two outcomes. -/
theorem load_missing_returns_false (s : SessionState) (e : String) :
    load_story_from_firestore true .missing s
      = (s, false, .info "No saved session found for this user ID.")
    ∧ load_story_from_firestore true (.raises e) s
      = (s, false, .errorMsg ("Error loading session: " ++ e))
    ∧ (load_story_from_firestore true .missing s).2.2
        ≠ (load_story_from_firestore true (.raises e) s).2.2 := by
  refine ⟨rfl, rfl, ?_⟩
  simp [load_story_from_firestore]

/-- The submit-turn handler (source lines 427-458): on a non-empty
prompt, append the user's turn, build the prompt from the updated
history, call the gateway, and append the AI's turn with whatever text
the gateway returned. Streamlit's `chat_input` only fires the handler
on truthy (non-empty) input, modelled by the guard. -/
def submitTurn (cfg : GeminiModels) (s : SessionState) (user_prompt : String)
    (call : ProviderOutcome) : SessionState :=
  if user_prompt = "" then s
  else
    let s1 := { s with story_history := s.story_history ++ [(⟨"user", user_prompt⟩ : Turn)] }
    let ai_response_text := generate_gemini_response cfg
      (full_context s1.story_history s1.tone) s1.temperature s1.current_mode call
    { s1 with story_history := s1.story_history ++ [(⟨"ai", ai_response_text⟩ : Turn)] }

/-- C10: every submit of a non-empty prompt grows the log by exactly
two turns — the user's turn first, then exactly one AI-authored turn —
regardless of the generation outcome; prior turns are unchanged; and
on blocked or empty generation the human-readable message text is the
AI turn's text. -/
theorem submit_turn_appends (cfg : GeminiModels) (s : SessionState) (p : String)
    (call : ProviderOutcome) (hp : p ≠ "") :
    (submitTurn cfg s p call).story_history
      = s.story_history
          ++ [⟨"user", p⟩,
              ⟨"ai", generate_gemini_response cfg
                 (full_context (s.story_history ++ [⟨"user", p⟩]) s.tone)
                 s.temperature s.current_mode call⟩]
    ∧ (submitTurn cfg s p call).story_history.length = s.story_history.length + 2
    ∧ (submitTurn cfg s p call).story_history.take s.story_history.length
        = s.story_history
    ∧ (∀ r, call = .ok none (some r) → selectModel cfg s.current_mode = true →
        (submitTurn cfg s p call).story_history.getLast?
          = some (⟨"ai", blockedMsg r⟩ : Turn))
    ∧ (call = .ok none none → selectModel cfg s.current_mode = true →
        (submitTurn cfg s p call).story_history.getLast?
          = some (⟨"ai", emptyMsg⟩ : Turn)) := by
  have hmain : (submitTurn cfg s p call).story_history
      = (s.story_history ++ [⟨"user", p⟩])
          ++ [⟨"ai", generate_gemini_response cfg
                 (full_context (s.story_history ++ [⟨"user", p⟩]) s.tone)
                 s.temperature s.current_mode call⟩] := by
    simp [submitTurn, hp]
  refine ⟨?_, ?_, ?_, ?_, ?_⟩
  · rw [hmain, List.append_assoc]; rfl
  · rw [hmain]; simp
  · rw [hmain, List.append_assoc]
    exact List.take_left s.story_history _
  · intro r hcall hsel
    subst hcall
    rw [hmain, List.getLast?_concat]
    simp [generate_gemini_response, hsel, blockedOrEmpty]
  · intro hcall hsel
    subst hcall
    rw [hmain, List.getLast?_concat]
    simp [generate_gemini_response, hsel, blockedOrEmpty]

theorem submit_turn_appends_witness :
    (submitTurn cfgBoth s0 "Open the door" (.ok none (some "SAFETY"))).story_history
      = s0.story_history
          ++ [⟨"user", "Open the door"⟩,
              ⟨"ai", generate_gemini_response cfgBoth
                 (full_context (s0.story_history ++ [⟨"user", "Open the door"⟩]) s0.tone)
                 s0.temperature s0.current_mode (.ok none (some "SAFETY"))⟩]
    ∧ (submitTurn cfgBoth s0 "Open the door" (.ok none (some "SAFETY"))).story_history.length
        = s0.story_history.length + 2
    ∧ (submitTurn cfgBoth s0 "Open the door" (.ok none (some "SAFETY"))).story_history.getLast?
        = some ⟨"ai", blockedMsg "SAFETY"⟩ := by
  have h := submit_turn_appends cfgBoth s0 "Open the door" (.ok none (some "SAFETY"))
    (by decide)
  exact ⟨h.1, h.2.1, h.2.2.2.1 "SAFETY" rfl (by decide)⟩

end DungeonGPT
